import Mathlib

set_option maxRecDepth 1000000

/-!
Shallow embedding of `src/clientapi/routing/consent_tracking.go`
(geekgonecrazy/dendrite, package `routing`).

Go strings and byte slices are modelled as `List Nat` (byte values);
32-bit machine words are `Nat` reduced modulo `2 ^ 32`.
-/

namespace Consent

/-- Bytes of an ASCII string literal, to write concrete inputs readably. -/
def str (s : String) : List Nat := s.data.map Char.toNat

/-- Truncation to a 32-bit word (`uint32` arithmetic wraps modulo `2 ^ 32`). -/
def w32 (x : Nat) : Nat := x % 4294967296

/-- 32-bit right rotation. -/
def rotr (n x : Nat) : Nat := w32 ((x >>> n) ||| (x <<< (32 - n)))

/-- SHA-256 round constants (FIPS 180-4), as in Go `crypto/sha256`,
written in decimal. -/
def sha256K : List Nat :=
  [1116352408, 1899447441, 3049323471, 3921009573, 961987163,
   1508970993, 2453635748, 2870763221, 3624381080, 310598401,
   607225278, 1426881987, 1925078388, 2162078206, 2614888103,
   3248222580, 3835390401, 4022224774, 264347078, 604807628,
   770255983, 1249150122, 1555081692, 1996064986, 2554220882,
   2821834349, 2952996808, 3210313671, 3336571891, 3584528711,
   113926993, 338241895, 666307205, 773529912, 1294757372,
   1396182291, 1695183700, 1986661051, 2177026350, 2456956037,
   2730485921, 2820302411, 3259730800, 3345764771, 3516065817,
   3600352804, 4094571909, 275423344, 430227734, 506948616,
   659060556, 883997877, 958139571, 1322822218, 1537002063,
   1747873779, 1955562222, 2024104815, 2227730452, 2361852424,
   2428436474, 2756734187, 3204031479, 3329325298]

/-- SHA-256 message-schedule function σ₀. -/
def ssig0 (x : Nat) : Nat := (rotr 7 x) ^^^ (rotr 18 x) ^^^ (x >>> 3)

/-- SHA-256 message-schedule function σ₁. -/
def ssig1 (x : Nat) : Nat := (rotr 17 x) ^^^ (rotr 19 x) ^^^ (x >>> 10)

/-- SHA-256 round function Σ₀. -/
def bsig0 (x : Nat) : Nat := (rotr 2 x) ^^^ (rotr 13 x) ^^^ (rotr 22 x)

/-- SHA-256 round function Σ₁. -/
def bsig1 (x : Nat) : Nat := (rotr 6 x) ^^^ (rotr 11 x) ^^^ (rotr 25 x)

/-- SHA-256 choice function. -/
def chF (x y z : Nat) : Nat := (x &&& y) ^^^ ((x ^^^ 4294967295) &&& z)

/-- SHA-256 majority function. -/
def majF (x y z : Nat) : Nat := (x &&& y) ^^^ (x &&& z) ^^^ (y &&& z)

/-- Extend the 16 block words to the 64-word message schedule.
`acc` holds the words produced so far, most recent first. -/
def extendW (fuel : Nat) (acc : List Nat) : List Nat :=
  match fuel with
  | 0 => acc.reverse
  | f + 1 =>
      let w2 := acc.getD 1 0
      let w7 := acc.getD 6 0
      let w15 := acc.getD 14 0
      let w16 := acc.getD 15 0
      extendW f (w32 (ssig1 w2 + w7 + ssig0 w15 + w16) :: acc)

/-- The eight 32-bit working variables of the SHA-256 compression. -/
structure Sha256State where
  a : Nat
  b : Nat
  c : Nat
  d : Nat
  e : Nat
  f : Nat
  g : Nat
  h : Nat
deriving Repr, DecidableEq

/-- One SHA-256 round with key constant `k` and schedule word `w`. -/
def sha256Round (s : Sha256State) (kw : Nat × Nat) : Sha256State :=
  let t1 := w32 (s.h + bsig1 s.e + chF s.e s.f s.g + kw.1 + kw.2)
  let t2 := w32 (bsig0 s.a + majF s.a s.b s.c)
  ⟨w32 (t1 + t2), s.a, s.b, s.c, w32 (s.d + t1), s.e, s.f, s.g⟩

/-- SHA-256 compression of one 64-byte block (given as 16 words) into the state. -/
def sha256Block (st : Sha256State) (ws : List Nat) : Sha256State :=
  let sched := extendW 48 ws.reverse
  let r := sched.zip sha256K |>.foldl (fun s kw => sha256Round s (kw.2, kw.1)) st
  ⟨w32 (st.a + r.a), w32 (st.b + r.b), w32 (st.c + r.c), w32 (st.d + r.d),
   w32 (st.e + r.e), w32 (st.f + r.f), w32 (st.g + r.g), w32 (st.h + r.h)⟩

/-- Big-endian bytes of `n`, `len` bytes wide. -/
def natToBytesBE (len n : Nat) : List Nat :=
  match len with
  | 0 => []
  | l + 1 => natToBytesBE l (n / 256) ++ [n % 256]

/-- Group bytes into big-endian 32-bit words (length assumed a multiple of 4). -/
def bytesToWords : List Nat → List Nat
  | a :: b :: c :: d :: rest => (a * 16777216 + b * 65536 + c * 256 + d) :: bytesToWords rest
  | _ => []

/-- Split a byte list into 64-byte blocks; `fuel` bounds the recursion. -/
def chunks64 (fuel : Nat) (l : List Nat) : List (List Nat) :=
  match fuel, l with
  | 0, _ => []
  | _, [] => []
  | f + 1, l => l.take 64 :: chunks64 f (l.drop 64)

/-- SHA-256 padding: append `0x80`, zeros, and the 64-bit big-endian bit length. -/
def sha256Pad (msg : List Nat) : List Nat :=
  let len := msg.length
  let zeros := (119 - len % 64) % 64
  msg ++ 128 :: List.replicate zeros 0 ++ natToBytesBE 8 (len * 8)

/-- SHA-256 initial hash value (FIPS 180-4 `H₀`), written in decimal. -/
def sha256Init : Sha256State :=
  ⟨1779033703, 3144134277, 1013904242, 2773480762,
   1359893119, 2600822924, 528734635, 1541459225⟩

/-- SHA-256 of a byte string, as the 32-byte digest (Go `crypto/sha256`). -/
def sha256 (msg : List Nat) : List Nat :=
  let padded := sha256Pad msg
  let blocks := chunks64 padded.length padded
  let st := blocks.foldl (fun s blk => sha256Block s (bytesToWords blk)) sha256Init
  natToBytesBE 4 st.a ++ natToBytesBE 4 st.b ++ natToBytesBE 4 st.c ++ natToBytesBE 4 st.d ++
  natToBytesBE 4 st.e ++ natToBytesBE 4 st.f ++ natToBytesBE 4 st.g ++ natToBytesBE 4 st.h

/-- HMAC-SHA256 (Go `crypto/hmac` with `sha256.New`): block size 64,
key padded (or hashed first when longer than a block), inner pad `0x36`,
outer pad `0x5c`. -/
def hmacSHA256 (key msg : List Nat) : List Nat :=
  let k0 := if key.length > 64 then sha256 key else key
  let k0 := k0 ++ List.replicate (64 - k0.length) 0
  let inner := sha256 ((k0.map (fun b => b ^^^ 0x36)) ++ msg)
  sha256 ((k0.map (fun b => b ^^^ 0x5c)) ++ inner)

/-- Lowercase hex digit for a value below 16 (Go `encoding/hex` digits). -/
def hexDigit (n : Nat) : Nat := if n < 10 then 48 + n else 87 + n

/-- Lowercase hex encoding of a byte string (Go `hex.EncodeToString`). -/
def hexEncode (l : List Nat) : List Nat :=
  l.foldr (fun b acc => hexDigit (b / 16) :: hexDigit (b % 16) :: acc) []

/-- Go `encoding/hex` digit decoding: accepts `0-9`, `a-f`, `A-F`. -/
def fromHexChar (c : Nat) : Option Nat :=
  if 48 ≤ c ∧ c ≤ 57 then some (c - 48)
  else if 97 ≤ c ∧ c ≤ 102 then some (c - 97 + 10)
  else if 65 ≤ c ∧ c ≤ 70 then some (c - 65 + 10)
  else none

/-- Go `hex.DecodeString`: `none` models a returned error (an invalid
hex character or an odd-length input). -/
def hexDecode : List Nat → Option (List Nat)
  | [] => some []
  | [_] => none
  | a :: b :: rest =>
      match fromHexChar a, fromHexChar b, hexDecode rest with
      | some hi, some lo, some r => some ((hi * 16 + lo) :: r)
      | _, _, _ => none

/-- `validHMAC(username, userHMAC, secret)` from the source. The Go function
returns `(bool, error)`; `none` models the error return (the only reachable
error is the hex decode failure — `mac.Write` never fails), `some b` the
error-free result. `hmac.Equal` is constant-time byte equality, which returns
`false` on length mismatch, i.e. plain list equality. -/
def validHMAC (username userHMAC secret : List Nat) : Option Bool :=
  let expectedMAC := hmacSHA256 secret username
  match hexDecode userHMAC with
  | none => none
  | some decoded => some (decoded == expectedMAC)

/-- The configuration fields of `*config.ClientAPI` read by this file:
`cfg.Matrix.UserConsentOptions.{Version, FormSecret, BaseURL}`,
`cfg.Matrix.ServerName` and `cfg.Matrix.ServerNotices.LocalPart`. -/
structure ClientAPI where
  version : List Nat
  formSecret : List Nat
  baseURL : List Nat
  serverName : List Nat
  serverNoticesLocalPart : List Nat
deriving Repr, DecidableEq

/-- `buildConsentURI` from the source. The Go code builds
`fmt.Sprintf("%s/_matrix/client/consent?u=%s&h=%s&v=%s", BaseURL, userID, userMAC, Version)`
where `userMAC` is the raw `[]byte` digest: `%s` on a byte slice splices the
bytes in as-is, with no hex encoding. The `mac.Write` error branch is
unreachable (`hash.Hash` writes never fail), so the function is total here. -/
def buildConsentURI (cfg : ClientAPI) (userID : List Nat) : List Nat :=
  let userMAC := hmacSHA256 cfg.formSecret userID
  cfg.baseURL ++ str "/_matrix/client/consent?u=" ++ userID ++ str "&h=" ++ userMAC
    ++ str "&v=" ++ cfg.version

/-- The link format as the spec words it, for comparison with
`buildConsentURI`: `<baseURL>/_matrix/client/consent?u=<identity>&h=<hex(HMAC-SHA256(secret, identity))>&v=<version>`
with `h` the lowercase hex encoding of the digest. This definition follows
the spec's words, not the source. -/
def specConsentURI (cfg : ClientAPI) (userID : List Nat) : List Nat :=
  cfg.baseURL ++ str "/_matrix/client/consent?u=" ++ userID ++ str "&h="
    ++ hexEncode (hmacSHA256 cfg.formSecret userID) ++ str "&v=" ++ cfg.version

/-- Helper for `splitID`: split at the first `:` (byte 58). -/
def splitOnColon : List Nat → Option (List Nat × List Nat)
  | [] => none
  | c :: rest =>
      if c == 58 then some ([], rest)
      else
        match splitOnColon rest with
        | some (lp, sn) => some (c :: lp, sn)
        | none => none

/-- Modelled from the spec: `gomatrixserverlib.SplitID('@', id)` is not part
of this repository. Per the spec a UserIdentity is "logically
`(localPart, serverName)`" and "must be parseable from a canonical string
form; invalid strings are rejected": the canonical form is
`@localPart:serverName`, so a missing leading `@` (byte 64) or a missing `:`
separator is a parse error. -/
def splitID (s : List Nat) : Option (List Nat × List Nat) :=
  match s with
  | [] => none
  | c :: rest => if c == 64 then splitOnColon rest else none

/-- The HTTP method switch of the `consent` handler (`default` falls through
to a plain 200 response). -/
inductive Method
  | get
  | post
  | other
deriving Repr, DecidableEq

/-- The `constentTemplateData` struct from the source (field names as in Go;
`HasConsented` and `PublicVersion` start at Go's zero value `false`). -/
structure constentTemplateData where
  User : List Nat
  Version : List Nat
  UserHMAC : List Nat
  HasConsented : Bool
  PublicVersion : Bool
deriving Repr, DecidableEq

/-- A call made against the user API store by the `consent` handler:
`QueryPolicyVersion{LocalPart}` or
`PerformUpdatePolicyVersion{PolicyVersion, LocalPart, ServerNoticeUpdate}`. -/
inductive StoreCall
  | queryPolicyVersion (localPart : List Nat)
  | updatePolicyVersion (policyVersion : List Nat) (localPart : List Nat)
      (serverNoticeUpdate : Bool)
deriving Repr, DecidableEq

/-- The handler's `*util.JSONResponse` result: `nil` (success), the
`internalError` pointer, or the bare `{Code: StatusOK}` for other methods. -/
inductive ConsentResponse
  | success
  | internalError
  | okJSON
deriving Repr, DecidableEq

/-- Everything the `consent` handler does to its collaborators, in order:
store calls, the `data` passed to each `ExecuteTemplate` render call, and
each raw `writer.Write` body. -/
structure ConsentEffects where
  storeCalls : List StoreCall
  renders : List constentTemplateData
  bodyWrites : List (List Nat)
deriving Repr, DecidableEq

/-- The `consent` HTTP handler from the source. External collaborators are
oracles: `queryRes localPart` is `QueryPolicyVersion`'s result (`none` = error,
`some v` = the stored `PolicyVersion`), `updateRes policyVersion localPart
serverNoticeUpdate` is `true` when `PerformUpdatePolicyVersion` succeeds, and
`templateErr` says whether `ExecuteTemplate` returns an error. On GET a
template error is only logged (the handler still returns `nil`); on POST it
yields the internal error. -/
def consent (cfg : ClientAPI) (method : Method) (u v h : List Nat)
    (queryRes : List Nat → Option (List Nat))
    (updateRes : List Nat → List Nat → Bool → Bool)
    (templateErr : Bool) : ConsentEffects × ConsentResponse :=
  let data0 : constentTemplateData := ⟨u, v, h, false, false⟩
  match method with
  | .get =>
      let publicVersion := u == [] || h == [] || v == []
      if publicVersion then
        (⟨[], [{ data0 with PublicVersion := true }], []⟩, .success)
      else
        match splitID u with
        | none => (⟨[], [], []⟩, .internalError)
        | some (localPart, _) =>
            match queryRes localPart with
            | none => (⟨[.queryPolicyVersion localPart], [], []⟩, .internalError)
            | some storedVersion =>
                (⟨[.queryPolicyVersion localPart],
                  [{ data0 with HasConsented := storedVersion == cfg.version }], []⟩,
                 .success)
  | .post =>
      match splitID u with
      | none => (⟨[], [], []⟩, .internalError)
      | some (localPart, _) =>
          match validHMAC u h cfg.formSecret with
          | some true =>
              if updateRes v localPart false then
                (⟨[.updatePolicyVersion v localPart false],
                  [{ data0 with HasConsented := true, PublicVersion := false }], []⟩,
                 if templateErr then .internalError else .success)
              else
                (⟨[.updatePolicyVersion v localPart false], [],
                  [str "unable to update database"]⟩, .internalError)
          | _ => (⟨[], [], [str "invalid HMAC provided"]⟩, .internalError)
  | .other => (⟨[], [], []⟩, .okJSON)

/-- Per-user failure oracles for `sendServerNoticeForConsent`'s external
calls, each keyed by the (already `@local:server`-formatted) user ID:
`uriErr` is `buildConsentURI`'s error return (the `mac.Write` branch, kept
abstract), `templateErr` the `serverNoticeTemplate` rendering error,
`sendErr` the `sendServerNotice` delivery error, and `updateErr` the
`PerformUpdatePolicyVersion` error. -/
structure DispatchOracles where
  uriErr : List Nat → Bool
  templateErr : List Nat → Bool
  sendErr : List Nat → Bool
  updateErr : List Nat → Bool

/-- An externally visible event of one dispatch pass: a successful
`sendServerNotice` delivery, or a `PerformUpdatePolicyVersion` call with its
request fields and outcome (`ok = false` when the call returned an error). -/
inductive DispatchEvent
  | sent (userID : List Nat)
  | update (policyVersion : List Nat) (localPart : List Nat)
      (serverNoticeUpdate : Bool) (ok : Bool)
deriving Repr, DecidableEq

/-- One iteration of the `sendServerNoticeForConsent` loop, for the raw entry
`userID` of `res.OutdatedUsers`. Mirrors the source order: skip when equal to
`cfg.Matrix.ServerNotices.LocalPart`; reassign
`userID = fmt.Sprintf("@%s:%s", userID, cfg.Matrix.ServerName)`; build the
consent URI into the template data (`continue` on error); render the notice
template (`continue` on error); deliver (`continue` on error); increment
`sentMessages`; then call `PerformUpdatePolicyVersion` with
`PolicyVersion = consentOpts.Version`, `LocalPart = userID` (the full
formatted ID) and `ServerNoticeUpdate = true` (`continue` on error). Returns
the events and the `sentMessages` increment. -/
def noticeUser (cfg : ClientAPI) (oracles : DispatchOracles)
    (userID : List Nat) : List DispatchEvent × Nat :=
  if userID == cfg.serverNoticesLocalPart then ([], 0)
  else
    let fullID := str "@" ++ userID ++ str ":" ++ cfg.serverName
    if oracles.uriErr fullID then ([], 0)
    else if oracles.templateErr fullID then ([], 0)
    else if oracles.sendErr fullID then ([], 0)
    else
      ([.sent fullID,
        .update cfg.version fullID true (!oracles.updateErr fullID)], 1)

/-- The `for _, userID := range res.OutdatedUsers` loop of
`sendServerNoticeForConsent`: events in order, and the final `sentMessages`. -/
def processUsers (cfg : ClientAPI) (oracles : DispatchOracles) :
    List (List Nat) → List DispatchEvent × Nat
  | [] => ([], 0)
  | u :: rest =>
      let r := noticeUser cfg oracles u
      let rest' := processUsers cfg oracles rest
      (r.1 ++ rest'.1, r.2 + rest'.2)

/-- `sendServerNoticeForConsent` from the source. `queryOutdated` is the
result of `userAPI.QueryOutdatedPolicy` (`none` = error): on error the
function logs and returns with no per-user work; otherwise it runs the loop
over `res.OutdatedUsers`. -/
def sendServerNoticeForConsent (cfg : ClientAPI) (oracles : DispatchOracles)
    (queryOutdated : Option (List (List Nat))) :
    Option (List DispatchEvent × Nat) :=
  match queryOutdated with
  | none => none
  | some outdatedUsers => some (processUsers cfg oracles outdatedUsers)

/-- Modelled from the spec: the `ConsentStateStore` collaborator (the user
API storage) is not under `src/`. Per the spec it holds per user a
`ConsentRecord` `(userIdentity, acceptedVersion, noticeTriggered)`; modelled
as an association list from identity to `(acceptedVersion, noticeTriggered)`. -/
def Store := List (List Nat × (List Nat × Bool))

/-- Modelled from the spec: `updateAcceptedVersion(identity, version,
noticeTriggered)` — a `ConsentRecord` is "created implicitly on first write"
and a successful write sets the record's fields. -/
def storeSet (st : Store) (lp v : List Nat) (flag : Bool) : Store :=
  match st with
  | [] => [(lp, (v, flag))]
  | e :: rest =>
      if e.1 == lp then (lp, (v, flag)) :: rest else e :: storeSet rest lp v flag

/-- Apply the store updates of a dispatch trace to a store: a successful
`update` event writes the record, a failed one and a `sent` event change
nothing. -/
def applyEvents (st : Store) : List DispatchEvent → Store
  | [] => st
  | .sent _ :: rest => applyEvents st rest
  | .update v lp flag ok :: rest =>
      applyEvents (if ok then storeSet st lp v flag else st) rest

/-- Modelled from the spec: `listOutdated(currentVersion)` — the
`QueryOutdatedPolicy` collaborator returns "all users whose accepted version
differs from current". -/
def listOutdated (st : Store) (cur : List Nat) : List (List Nat) :=
  (st.filter (fun e => e.2.1 != cur)).map (fun e => e.1)

/-! Concrete fixtures used by witnesses and counterexample evaluations. -/

/-- A concrete configuration: current policy version `2.0`, form secret
`s3cr3t`, base URL `https://example.org`, server name `example.org`,
server-notices local part `server`. -/
def cfgAlice : ClientAPI :=
  ⟨str "2.0", str "s3cr3t", str "https://example.org", str "example.org", str "server"⟩

/-- The identity `@alice:example.org`. -/
def aliceID : List Nat := str "@alice:example.org"

/-- The identity `@bob:example.org`. -/
def bobID : List Nat := str "@bob:example.org"

/-- The lowercase-hex HMAC-SHA256 signature of `@bob:example.org` under the
secret `s3cr3t`. -/
def bobHex : List Nat := hexEncode (hmacSHA256 (str "s3cr3t") bobID)

/-- A query oracle that always fails. -/
def q0 : List Nat → Option (List Nat) := fun _ => none

/-- A query oracle that always reports stored version `2.0`. -/
def q20 : List Nat → Option (List Nat) := fun _ => some (str "2.0")

/-- An update oracle that always succeeds. -/
def up0 : List Nat → List Nat → Bool → Bool := fun _ _ _ => true

/-- Dispatch oracles where every external call succeeds. -/
def allOk : DispatchOracles :=
  ⟨fun _ => false, fun _ => false, fun _ => false, fun _ => false⟩

/-- Dispatch oracles where only the store update fails. -/
def updFail : DispatchOracles :=
  ⟨fun _ => false, fun _ => false, fun _ => false, fun _ => true⟩

/-- Dispatch oracles where delivery fails exactly for `@u2:example.org`. -/
def sendFailU2 : DispatchOracles :=
  ⟨fun _ => false, fun _ => false, fun x => x == str "@u2:example.org", fun _ => false⟩

/-- The store holding a single record: user `u1` accepted version `1`. -/
def store5 : Store := [(str "u1", (str "1", false))]

/-! Helper lemmas. -/

/-- A nonempty byte string is `BEq`-distinct from the empty string. -/
theorem beq_nil_eq_false {l : List Nat} (h : l ≠ []) : (l == []) = false := by
  cases l with
  | nil => exact absurd rfl h
  | cons a as => rfl

/-- Boolean equality on byte strings agrees with decidable equality. -/
theorem list_beq_eq_decide (a b : List Nat) : (a == b) = decide (a = b) := by
  by_cases h : a = b
  · subst h; simp
  · simp [h, beq_eq_false_iff_ne.mpr h]

/-- The dispatch loop distributes over list append: events concatenate and
`sentMessages` counts add, so no user's outcome can affect another's. -/
theorem processUsers_append (cfg : ClientAPI) (oracles : DispatchOracles)
    (l1 l2 : List (List Nat)) :
    processUsers cfg oracles (l1 ++ l2) =
      ((processUsers cfg oracles l1).1 ++ (processUsers cfg oracles l2).1,
       (processUsers cfg oracles l1).2 + (processUsers cfg oracles l2).2) := by
  induction l1 with
  | nil => simp [processUsers]
  | cons a as ih => simp [processUsers, ih, Nat.add_assoc]

/-! Claim theorems. -/

/-- C1 (refuted, code bug): the sign/verify round trip fails. The value
`buildConsentURI` places in the `h` parameter is the raw HMAC digest (Go
`%s` on the `[]byte` mac), not its hex encoding, while `validHMAC`
hex-decodes `h`; at identity `@alice:example.org` and secret `s3cr3t` the
digest starts with byte `0x71, 0xba, ...` — not a hex-digit pair — so
verification returns an error (`none`), not `true` with no error. -/
theorem c1_minted_signature_fails_validHMAC :
    buildConsentURI cfgAlice aliceID =
      str "https://example.org/_matrix/client/consent?u=@alice:example.org&h="
        ++ hmacSHA256 (str "s3cr3t") aliceID ++ str "&v=2.0" ∧
    validHMAC aliceID (hmacSHA256 (str "s3cr3t") aliceID) (str "s3cr3t") = none := by
  decide

/-- C2 (refuted, code bug): `buildConsentURI` does not produce the spec's
link format. `specConsentURI` is the spec's format (with `h` the lowercase
hex digest); at `@alice:example.org` under secret `s3cr3t` and version `2.0`
the code's URI differs from it, because the digest bytes are spliced in raw
instead of hex-encoded. -/
theorem c2_uri_h_not_hex_encoded :
    specConsentURI cfgAlice aliceID =
      str "https://example.org/_matrix/client/consent?u=@alice:example.org&h=71ba634cafbd9cd999fba598e834884fc8ae6b69990b5ddbca1d02ec8651dde4&v=2.0" ∧
    buildConsentURI cfgAlice aliceID ≠ specConsentURI cfgAlice aliceID := by
  decide

/-- C9 (confirmed): the minted signature and `validHMAC` are independent of
the policy version. For any two versions the built URIs share the same
prefix — base URL, identity and the HMAC over the identity bytes only —
and differ exactly in the trailing `&v=` value; `validHMAC` reads only the
identity, candidate signature and secret, so its result is identical under
the two versions. -/
theorem c9_signature_independent_of_version (cfg : ClientAPI)
    (v1 v2 userID userHMAC : List Nat) :
    ∃ pre,
      pre = cfg.baseURL ++ str "/_matrix/client/consent?u=" ++ userID
              ++ str "&h=" ++ hmacSHA256 cfg.formSecret userID ∧
      buildConsentURI { cfg with version := v1 } userID = pre ++ str "&v=" ++ v1 ∧
      buildConsentURI { cfg with version := v2 } userID = pre ++ str "&v=" ++ v2 ∧
      validHMAC userID userHMAC { cfg with version := v1 }.formSecret =
        validHMAC userID userHMAC { cfg with version := v2 }.formSecret :=
  ⟨cfg.baseURL ++ str "/_matrix/client/consent?u=" ++ userID
     ++ str "&h=" ++ hmacSHA256 cfg.formSecret userID, rfl, rfl, rfl, rfl⟩

/-- C5 (refuted, code bug): in a dispatch pass the store record of the
notified user is NOT updated, and the reported count is not the number of
notified-and-recorded users. With store `{u1 ↦ version 1}`, current version
`2.0` and every external call succeeding, the loop reassigns
`userID = "@u1:example.org"` before the store update and passes that full
string as `LocalPart` (the same request field that the POST handler fills
with the bare local part), so the update writes a record keyed
`@u1:example.org`, `u1`'s own record stays at version `1`, and `u1` is
still in the outdated set after the pass — yet `sentMessages` reports `1`.
Moreover the counter is incremented before the update is attempted: when
only the update fails, the count is still `1` though nothing was recorded. -/
theorem c5_dispatch_updates_wrong_record :
    listOutdated store5 (str "2.0") = [str "u1"] ∧
    sendServerNoticeForConsent cfgAlice allOk (some (listOutdated store5 (str "2.0"))) =
      some ([.sent (str "@u1:example.org"),
             .update (str "2.0") (str "@u1:example.org") true true], 1) ∧
    listOutdated
      (applyEvents store5
        [.sent (str "@u1:example.org"),
         .update (str "2.0") (str "@u1:example.org") true true]) (str "2.0") =
      [str "u1"] ∧
    str "@u1:example.org" ≠ str "u1" ∧
    sendServerNoticeForConsent cfgAlice updFail (some [str "u1"]) =
      some ([.sent (str "@u1:example.org"),
             .update (str "2.0") (str "@u1:example.org") true false], 1) := by
  decide

/-- C8 (confirmed): dispatcher failure policy. A failed outdated-users query
aborts the pass with no per-user work; otherwise the loop decomposes
per-user, so any one user's events and count contribution are independent of
the rest of the batch; the notice-sender identity is skipped; a per-user
URI/template/delivery failure makes that user contribute nothing; a store
update failure still leaves the loop to continue (that user contributes the
delivery and the failed update only). -/
theorem c8_dispatch_failure_policy (cfg : ClientAPI) (oracles : DispatchOracles) :
    sendServerNoticeForConsent cfg oracles none = none ∧
    (∀ l1 u l2, sendServerNoticeForConsent cfg oracles (some (l1 ++ u :: l2)) =
      some ((processUsers cfg oracles l1).1 ++ (noticeUser cfg oracles u).1
              ++ (processUsers cfg oracles l2).1,
            (processUsers cfg oracles l1).2 + (noticeUser cfg oracles u).2
              + (processUsers cfg oracles l2).2)) ∧
    (∀ u, u = cfg.serverNoticesLocalPart → noticeUser cfg oracles u = ([], 0)) ∧
    (∀ u, u ≠ cfg.serverNoticesLocalPart →
      (oracles.uriErr (str "@" ++ u ++ str ":" ++ cfg.serverName) = true ∨
       oracles.templateErr (str "@" ++ u ++ str ":" ++ cfg.serverName) = true ∨
       oracles.sendErr (str "@" ++ u ++ str ":" ++ cfg.serverName) = true) →
      noticeUser cfg oracles u = ([], 0)) ∧
    (∀ u, u ≠ cfg.serverNoticesLocalPart →
      oracles.uriErr (str "@" ++ u ++ str ":" ++ cfg.serverName) = false →
      oracles.templateErr (str "@" ++ u ++ str ":" ++ cfg.serverName) = false →
      oracles.sendErr (str "@" ++ u ++ str ":" ++ cfg.serverName) = false →
      oracles.updateErr (str "@" ++ u ++ str ":" ++ cfg.serverName) = true →
      noticeUser cfg oracles u =
        ([.sent (str "@" ++ u ++ str ":" ++ cfg.serverName),
          .update cfg.version (str "@" ++ u ++ str ":" ++ cfg.serverName) true false], 1)) := by
  refine ⟨rfl, ?_, ?_, ?_, ?_⟩
  · intro l1 u l2
    show some (processUsers cfg oracles (l1 ++ u :: l2)) = _
    rw [processUsers_append]
    simp [processUsers, Nat.add_assoc]
  · intro u hu
    subst hu
    simp [noticeUser]
  · intro u hu hfail
    have hne : (u == cfg.serverNoticesLocalPart) = false := beq_eq_false_iff_ne.mpr hu
    rcases hfail with he | he | he <;>
      · simp only [List.append_assoc] at he
        simp [noticeUser, hne, he]
  · intro u hu h1 h2 h3 h4
    have hne : (u == cfg.serverNoticesLocalPart) = false := beq_eq_false_iff_ne.mpr hu
    simp only [List.append_assoc] at h1 h2 h3 h4
    simp [noticeUser, hne, h1, h2, h3, h4]

/-- Witness for C8 at a concrete pass: configuration `cfgAlice`, delivery
failing exactly for `@u2:example.org`; the aborted-query case, the
decomposition of the batch `[u1, u2, u3]` around `u2`, the skipped `u2`
contribution, and the notice-sender self-skip, all discharged at concrete
inputs. -/
theorem c8_dispatch_failure_policy_witness :
    sendServerNoticeForConsent cfgAlice sendFailU2 none = none ∧
    sendServerNoticeForConsent cfgAlice sendFailU2 (some [str "u1", str "u2", str "u3"]) =
      some ((processUsers cfgAlice sendFailU2 [str "u1"]).1
              ++ (noticeUser cfgAlice sendFailU2 (str "u2")).1
              ++ (processUsers cfgAlice sendFailU2 [str "u3"]).1,
            (processUsers cfgAlice sendFailU2 [str "u1"]).2
              + (noticeUser cfgAlice sendFailU2 (str "u2")).2
              + (processUsers cfgAlice sendFailU2 [str "u3"]).2) ∧
    noticeUser cfgAlice sendFailU2 (str "u2") = ([], 0) ∧
    noticeUser cfgAlice sendFailU2 cfgAlice.serverNoticesLocalPart = ([], 0) :=
  ⟨(c8_dispatch_failure_policy cfgAlice sendFailU2).1,
   (c8_dispatch_failure_policy cfgAlice sendFailU2).2.1 [str "u1"] (str "u2") [str "u3"],
   (c8_dispatch_failure_policy cfgAlice sendFailU2).2.2.2.1 (str "u2") (by decide)
     (Or.inr (Or.inr (by decide))),
   (c8_dispatch_failure_policy cfgAlice sendFailU2).2.2.1
     cfgAlice.serverNoticesLocalPart rfl⟩

/-- C3 (confirmed): POST success path. When `u` parses and `h` verifies as a
valid signature over `u` under the configured secret, the handler makes
exactly one store call — the write setting the parsed local part's accepted
version to the request's `v` — and, when that write succeeds, renders
exactly the ConfirmedView data (`PublicVersion = false`,
`HasConsented = true`). -/
theorem c3_post_success (cfg : ClientAPI) (u v h localPart sn : List Nat)
    (queryRes : List Nat → Option (List Nat))
    (updateRes : List Nat → List Nat → Bool → Bool) (templateErr : Bool)
    (hparse : splitID u = some (localPart, sn))
    (hmacOk : validHMAC u h cfg.formSecret = some true) :
    (consent cfg .post u v h queryRes updateRes templateErr).1.storeCalls =
      [.updatePolicyVersion v localPart false] ∧
    (updateRes v localPart false = true →
      consent cfg .post u v h queryRes updateRes templateErr =
        (⟨[.updatePolicyVersion v localPart false], [⟨u, v, h, true, false⟩], []⟩,
         if templateErr then .internalError else .success)) := by
  constructor
  · by_cases hup : updateRes v localPart false = true <;>
      simp [consent, hparse, hmacOk, hup]
  · intro hup
    simp [consent, hparse, hmacOk, hup]

/-- Witness for C3: `@bob:example.org` accepting version `2` with the
correct hex signature under secret `s3cr3t`; the store write always
succeeds. -/
theorem c3_post_success_witness :
    splitID bobID = some (str "bob", str "example.org") ∧
    validHMAC bobID bobHex cfgAlice.formSecret = some true ∧
    up0 (str "2") (str "bob") false = true ∧
    ((consent cfgAlice .post bobID (str "2") bobHex q0 up0 false).1.storeCalls =
       [.updatePolicyVersion (str "2") (str "bob") false] ∧
     (up0 (str "2") (str "bob") false = true →
       consent cfgAlice .post bobID (str "2") bobHex q0 up0 false =
         (⟨[.updatePolicyVersion (str "2") (str "bob") false],
           [⟨bobID, str "2", bobHex, true, false⟩], []⟩,
          if false then .internalError else .success))) :=
  ⟨by decide, by decide, rfl,
   c3_post_success cfgAlice bobID (str "2") bobHex (str "bob") (str "example.org")
     q0 up0 false (by decide) (by decide)⟩

/-- C4 (confirmed): POST rejection atomicity. When `u` parses but `h` either
fails hex decoding or decodes to bytes different from the HMAC of `u` under
the secret, the handler writes the body `invalid HMAC provided`, returns the
error response, makes zero store calls and renders nothing; the decode
failure is rejected exactly like a mismatch, not swallowed. -/
theorem c4_post_invalid_hmac (cfg : ClientAPI) (u v h localPart sn : List Nat)
    (queryRes : List Nat → Option (List Nat))
    (updateRes : List Nat → List Nat → Bool → Bool) (templateErr : Bool)
    (hparse : splitID u = some (localPart, sn))
    (hbad : hexDecode h = none ∨
      ∃ d, hexDecode h = some d ∧ d ≠ hmacSHA256 cfg.formSecret u) :
    consent cfg .post u v h queryRes updateRes templateErr =
      (⟨[], [], [str "invalid HMAC provided"]⟩, .internalError) := by
  have hv : validHMAC u h cfg.formSecret ≠ some true := by
    rcases hbad with hd | ⟨d, hd, hdne⟩
    · simp [validHMAC, hd]
    · simp [validHMAC, hd, beq_eq_false_iff_ne.mpr hdne]
  rcases hvv : validHMAC u h cfg.formSecret with _ | b
  · simp [consent, hparse, hvv]
  · cases b
    · simp [consent, hparse, hvv]
    · exact absurd hvv hv

/-- Witness for C4: `@bob:example.org` with the non-hex signature `zz`
(a decode failure). -/
theorem c4_post_invalid_hmac_witness :
    splitID bobID = some (str "bob", str "example.org") ∧
    hexDecode (str "zz") = none ∧
    consent cfgAlice .post bobID (str "2") (str "zz") q0 up0 false =
      (⟨[], [], [str "invalid HMAC provided"]⟩, .internalError) :=
  ⟨by decide, by decide,
   c4_post_invalid_hmac cfgAlice bobID (str "2") (str "zz") (str "bob")
     (str "example.org") q0 up0 false (by decide) (Or.inl (by decide))⟩

/-- C6 (confirmed): GET consent decision. With `u`, `v`, `h` all nonempty,
`u` parsing to a local part and the store read succeeding with
`storedVersion`, the handler makes exactly the one store read and renders
exactly one view with `PublicVersion = false` and `HasConsented` true
precisely when the stored version equals the configured current version
(ConfirmedView), and false otherwise (PromptView). -/
theorem c6_get_decision (cfg : ClientAPI) (u v h localPart sn storedVersion : List Nat)
    (queryRes : List Nat → Option (List Nat))
    (updateRes : List Nat → List Nat → Bool → Bool) (templateErr : Bool)
    (hu : u ≠ []) (hv : v ≠ []) (hh : h ≠ [])
    (hparse : splitID u = some (localPart, sn))
    (hquery : queryRes localPart = some storedVersion) :
    consent cfg .get u v h queryRes updateRes templateErr =
      (⟨[.queryPolicyVersion localPart],
        [⟨u, v, h, decide (storedVersion = cfg.version), false⟩], []⟩, .success) ∧
    (decide (storedVersion = cfg.version) = true ↔ storedVersion = cfg.version) := by
  refine ⟨?_, by simp⟩
  simp [consent, beq_nil_eq_false hu, beq_nil_eq_false hv, beq_nil_eq_false hh,
    hparse, hquery, list_beq_eq_decide]

/-- Witness for C6: `@bob:example.org` with stored version `2.0` equal to
the current version, arbitrary nonempty signature `zz`: ConfirmedView. -/
theorem c6_get_decision_witness :
    bobID ≠ [] ∧ str "2.0" ≠ [] ∧ str "zz" ≠ [] ∧
    splitID bobID = some (str "bob", str "example.org") ∧
    q20 (str "bob") = some (str "2.0") ∧
    (consent cfgAlice .get bobID (str "2.0") (str "zz") q20 up0 false =
      (⟨[.queryPolicyVersion (str "bob")],
        [⟨bobID, str "2.0", str "zz", decide (str "2.0" = cfgAlice.version), false⟩],
        []⟩, .success) ∧
     (decide (str "2.0" = cfgAlice.version) = true ↔ str "2.0" = cfgAlice.version)) :=
  ⟨by decide, by decide, by decide, by decide, rfl,
   c6_get_decision cfgAlice bobID (str "2.0") (str "zz") (str "bob")
     (str "example.org") (str "2.0") q20 up0 false (by decide) (by decide) (by decide)
     (by decide) rfl⟩

/-- C7 (confirmed): GET public fallback. When any of `u`, `v`, `h` is empty
the handler renders exactly one PublicView (`PublicVersion = true`,
`HasConsented = false`), makes zero store calls, writes no body and returns
success. -/
theorem c7_get_public_fallback (cfg : ClientAPI) (u v h : List Nat)
    (queryRes : List Nat → Option (List Nat))
    (updateRes : List Nat → List Nat → Bool → Bool) (templateErr : Bool)
    (hempty : u = [] ∨ h = [] ∨ v = []) :
    consent cfg .get u v h queryRes updateRes templateErr =
      (⟨[], [⟨u, v, h, false, true⟩], []⟩, .success) := by
  rcases hempty with rfl | rfl | rfl <;> simp [consent]

/-- Witness for C7: a bare `GET /consent` with no parameters. -/
theorem c7_get_public_fallback_witness :
    (([] : List Nat) = [] ∨ ([] : List Nat) = [] ∨ ([] : List Nat) = []) ∧
    consent cfgAlice .get [] [] [] q20 up0 false =
      (⟨[], [⟨[], [], [], false, true⟩], []⟩, .success) :=
  ⟨Or.inl rfl,
   c7_get_public_fallback cfgAlice [] [] [] q20 up0 false (Or.inl rfl)⟩

/-- C10 (confirmed): GET never checks the signature. For two GET requests
that differ only in their (nonempty) `h` parameter, the handler makes the
same store calls, returns the same response, and renders the same view
classification (`PublicVersion`, `HasConsented`) — the GET branch never
calls `validHMAC`, so a forged or non-hex `h` yields the same personalized
view as a valid signature. -/
theorem c10_get_ignores_hmac (cfg : ClientAPI) (u v h1 h2 : List Nat)
    (queryRes : List Nat → Option (List Nat))
    (updateRes : List Nat → List Nat → Bool → Bool) (templateErr : Bool)
    (h1ne : h1 ≠ []) (h2ne : h2 ≠ []) :
    (consent cfg .get u v h1 queryRes updateRes templateErr).1.storeCalls =
      (consent cfg .get u v h2 queryRes updateRes templateErr).1.storeCalls ∧
    (consent cfg .get u v h1 queryRes updateRes templateErr).2 =
      (consent cfg .get u v h2 queryRes updateRes templateErr).2 ∧
    ((consent cfg .get u v h1 queryRes updateRes templateErr).1.renders.map
       (fun d => (d.PublicVersion, d.HasConsented))) =
      ((consent cfg .get u v h2 queryRes updateRes templateErr).1.renders.map
       (fun d => (d.PublicVersion, d.HasConsented))) := by
  have e1 := beq_nil_eq_false h1ne
  have e2 := beq_nil_eq_false h2ne
  simp only [consent, e1, e2, Bool.false_or, Bool.or_false]
  cases hb : (u == [] || v == [])
  · cases hsp : splitID u with
    | none => simp [hb, hsp]
    | some p =>
        cases hq : queryRes p.1 with
        | none => simp [hb, hsp, hq]
        | some sv => simp [hb, hsp, hq]
  · simp [hb]

/-- Witness for C10: `@bob:example.org` queried with a non-hex `h = zz`
versus `h = 00`; both give the same store read, response and view
classification. -/
theorem c10_get_ignores_hmac_witness :
    str "zz" ≠ [] ∧ str "00" ≠ [] ∧
    ((consent cfgAlice .get bobID (str "2.0") (str "zz") q20 up0 false).1.storeCalls =
       (consent cfgAlice .get bobID (str "2.0") (str "00") q20 up0 false).1.storeCalls ∧
     (consent cfgAlice .get bobID (str "2.0") (str "zz") q20 up0 false).2 =
       (consent cfgAlice .get bobID (str "2.0") (str "00") q20 up0 false).2 ∧
     ((consent cfgAlice .get bobID (str "2.0") (str "zz") q20 up0 false).1.renders.map
        (fun d => (d.PublicVersion, d.HasConsented))) =
       ((consent cfgAlice .get bobID (str "2.0") (str "00") q20 up0 false).1.renders.map
        (fun d => (d.PublicVersion, d.HasConsented)))) :=
  ⟨by decide, by decide,
   c10_get_ignores_hmac cfgAlice bobID (str "2.0") (str "zz") (str "00")
     q20 up0 false (by decide) (by decide)⟩

end Consent
